import Mathlib

/-!
Verification of the mcpknife export subsystem: the pipeline-metadata crawler
(`src/export.ts`) and the artifact synthesizer (`src/codegen.ts`), together
with the dispatch/sandbox logic of the server code the synthesizer emits.

The definitions below are a shallow embedding translated from the TypeScript
source.  Data shapes follow the interfaces in `codegen.ts` (BootTool,
PassThroughTool, SyntheticTool, UIResource, BootStage, ModStage, UIStage) and
`export.ts` (StageMetadata).  The behavior of the *generated* server.js is
embedded as Lean functions over the stage list: the synthesizer decides at
generation time which branches and bindings the emitted dispatcher contains,
so the emitted program's dispatch semantics is a function of the stage list,
parameterized over oracles for the evaluation of the embedded JavaScript code
fragments (which are opaque strings to the generator).
-/

/-- JSON values, as carried in stage metadata (tool input schemas) and as the
argument/result payloads of tool calls.  Object fields keep insertion order,
matching JavaScript objects parsed from JSON; numbers are modelled as
integers (the schemas in play are plain JSON documents). -/
inductive Json where
  | null : Json
  | bool (b : Bool) : Json
  | num (n : Int) : Json
  | str (s : String) : Json
  | arr (elems : List Json) : Json
  | obj (fields : List (String × Json)) : Json

/-- Result of evaluating one embedded JavaScript code fragment: the fragment
either produces a value or throws (synchronously or as a rejected promise). -/
inductive ExecResult (α : Type) where
  | ok (v : α) : ExecResult α
  | thrown (msg : String) : ExecResult α
deriving DecidableEq

/-- `interface BootTool` in codegen.ts: one directly implemented tool of the
boot (root) stage. -/
structure BootTool where
  name : String
  description : String
  input_schema : Json
  handler_code : String
  needs_network : Bool

/-- `interface PassThroughTool` in codegen.ts: one routing entry of the mod
stage, renaming/reshaping one upstream tool.  In the source the transform
fields have type `string | null`; `none` models null. -/
structure PassThroughTool where
  exposed_name : String
  upstream_name : String
  exposed_schema : Json
  description : Option String
  input_transform_code : Option String
  output_transform_code : Option String

/-- `interface SyntheticTool` in codegen.ts: a tool defined purely by
orchestration code. -/
structure SyntheticTool where
  name : String
  description : String
  input_schema : Json
  orchestration_code : String
  upstream_tools_used : List String

/-- `interface UIResource` in codegen.ts. -/
structure UIResource where
  tool_name : String
  resource_uri : String
  html : String

/-- Payload of a `stage: "boot"` metadata document (`interface BootStage`). -/
structure BootData where
  whitelist_domains : List String
  tools : List BootTool

/-- Payload of a `stage: "mod"` metadata document (`interface ModStage`). -/
structure ModData where
  hidden_tools : List String
  pass_through_tools : List PassThroughTool
  synthetic_tools : List SyntheticTool

/-- Payload of a `stage: "ui"` metadata document (`interface UIStage`). -/
structure UIData where
  ui_resources : List UIResource

/-- The variant-specific part of a stage metadata document.  The `stage`
string discriminator of the source corresponds to the constructor. -/
inductive StageBody where
  | boot (b : BootData) : StageBody
  | mod (m : ModData) : StageBody
  | ui (u : UIData) : StageBody

/-- `interface StageMetadata` in export.ts: every stage carries the
discriminator (here the body constructor), a version, and the backward
pointer `upstream_url` (null at the chain root). -/
structure StageMetadata where
  body : StageBody
  version : String
  upstream_url : Option String

/-- The `stage` discriminator string of a metadata document. -/
def StageMetadata.stage (s : StageMetadata) : String :=
  match s.body with
  | .boot _ => "boot"
  | .mod _ => "mod"
  | .ui _ => "ui"

/-- `stages.find(s => s.stage === "boot")` as used throughout codegen.ts:
first boot stage of the list, if any. -/
def findBoot (stages : List StageMetadata) : Option BootData :=
  match stages.find? (fun s => s.stage == "boot") with
  | some ⟨.boot b, _, _⟩ => some b
  | _ => none

/-- `stages.find(s => s.stage === "mod")`: first mod stage of the list. -/
def findMod (stages : List StageMetadata) : Option ModData :=
  match stages.find? (fun s => s.stage == "mod") with
  | some ⟨.mod m, _, _⟩ => some m
  | _ => none

/-- `stages.find(s => s.stage === "ui")`: first ui stage of the list. -/
def findUI (stages : List StageMetadata) : Option UIData :=
  match stages.find? (fun s => s.stage == "ui") with
  | some ⟨.ui u, _, _⟩ => some u
  | _ => none

/-- `const hasNetwork = boot?.tools.some(t => t.needs_network) ?? false`
(codegen.ts line 182): true when ANY boot tool declares a network need. -/
def hasNetwork (stages : List StageMetadata) : Bool :=
  match findBoot stages with
  | some b => b.tools.any (fun t => t.needs_network)
  | none => false

/-- One entry of the exposed (client-visible) tool listing, as produced by
`getExposedTools` in codegen.ts. -/
structure ExposedTool where
  name : String
  description : String
  inputSchema : Json

/-- JavaScript string truthiness of a `string | null` field: null and the
empty string are falsy.  Used by the generation-time filter
`t.input_transform_code || t.output_transform_code` and by the emitted
dispatch checks `transform.input_transform_code` /
`transform.output_transform_code`. -/
def codeTruthy : Option String → Bool
  | none => false
  | some s => s != ""

/-- `getExposedTools` (codegen.ts lines 137-175): when a mod stage exists it
alone defines the exposed set (pass-through tools under their exposed name,
then synthetic tools); otherwise all boot tools are exposed unchanged;
with neither stage the listing is empty.  Note that `hidden_tools` is never
consulted here. -/
def getExposedTools (stages : List StageMetadata) : List ExposedTool :=
  match findMod stages with
  | some m =>
      m.pass_through_tools.map (fun t =>
        { name := t.exposed_name
          description := t.description.getD ""
          inputSchema := t.exposed_schema })
      ++ m.synthetic_tools.map (fun t =>
        { name := t.name, description := t.description, inputSchema := t.input_schema })
  | none =>
      match findBoot stages with
      | some b =>
          b.tools.map (fun t =>
            { name := t.name, description := t.description, inputSchema := t.input_schema })
      | none => []

/-! ## Network capability gating (emitted `isAllowed` / `whitelistedFetch`)

Emitted by `generateServerJs` only when `hasNetwork` (codegen.ts lines
215-234).  The URL constructor of the host is abstracted as a hostname
parser returning `none` exactly when `new URL(url)` would throw (the `catch`
branch of `isAllowed` then yields false). -/

/-- The emitted `isAllowed(url)`: parse the hostname and compare it against
the whitelist; `hostname === d || hostname.endsWith("." + d)`. -/
def isAllowed (parseHostname : String → Option String) (whitelist : List String)
    (url : String) : Bool :=
  match parseHostname url with
  | none => false
  | some hostname =>
      whitelist.any (fun d => hostname == d || hostname.endsWith ("." ++ d))

/-- Outcome of one call of the emitted `whitelistedFetch`: the value produced
or exception thrown, together with the trace of network connections that the
call opened (the URLs passed to the real `fetch`). -/
structure FetchOutcome where
  result : ExecResult Json
  connectionsOpened : List String

/-- The emitted `whitelistedFetch(url, opts)`: check the whitelist FIRST and
throw `"Network access denied: " + url` without touching the network;
otherwise delegate to the real `fetch` (modelled by the oracle `doFetch`,
recorded in the connection trace). -/
def whitelistedFetch (parseHostname : String → Option String) (whitelist : List String)
    (doFetch : String → Json) (url : String) : FetchOutcome :=
  if isAllowed parseHostname whitelist url then
    { result := .ok (doFetch url), connectionsOpened := [url] }
  else
    { result := .thrown ("Network access denied: " ++ url), connectionsOpened := [] }

/-! ## Static execution model of the emitted fragment-evaluation sites

`generateServerJs` fixes, at generation time, HOW each kind of embedded code
fragment is evaluated by the emitted server: boot handlers through
`runHandler` (fresh `vm.createContext` per invocation over an explicit
sandbox object, `{ timeout: SANDBOX_TIMEOUT_MS }`, codegen.ts lines 237-252),
synthetic orchestrations through an inline copy of the same pattern with the
extra `callTool` binding (lines 307-322), and the transform pair members
through `new Function("args"|"result", code)` called in the module realm
inside a try/catch that only logs (lines 332-353). -/

/-- How an evaluation site runs its fragment. -/
inductive ExecMechanism where
  /-- `vm.createContext(sandbox)` on a sandbox object literal constructed
  anew inside the invocation: an isolated context, fresh per call, exposing
  exactly the sandbox object's own bindings. -/
  | freshVmContext : ExecMechanism
  /-- `new Function(param, code)` invoked directly: the fragment runs as an
  ordinary function of the server's module realm, with the whole ambient
  global scope reachable, no isolation and no vm timeout. -/
  | hostFunction : ExecMechanism
deriving DecidableEq

/-- Static description of one fragment-evaluation site of the emitted
server. `bindings` lists, for a vm site, the own-properties of the sandbox
object (the complete allowlist); for a host-function site, only the declared
function parameter (ambient scope stays reachable). -/
structure ExecSpec where
  mechanism : ExecMechanism
  bindings : List String
  timeout_ms : Option Nat
  exceptionsCaughtLocally : Bool
deriving DecidableEq

/-- The sandbox bindings shared by `runHandler` and the orchestration site,
after `args` (and `callTool`): codegen.ts lines 240-246 / 311-317. -/
def sharedSandboxBindings : List String :=
  ["JSON", "Math", "String", "Number", "Boolean", "Array", "Object", "Map", "Set",
   "Date", "RegExp", "parseInt", "parseFloat", "isNaN", "isFinite",
   "structuredClone", "console", "Promise"]

/-- `const SANDBOX_TIMEOUT_MS = 30000` (codegen.ts line 237). -/
def SANDBOX_TIMEOUT_MS : Nat := 30000

/-- One code fragment of a generated artifact, identified by the tool it
belongs to. -/
inductive GeneratedFragment where
  | handler (toolName : String) : GeneratedFragment
  | orchestration (toolName : String) : GeneratedFragment
  | inputTransform (exposedName : String) : GeneratedFragment
  | outputTransform (exposedName : String) : GeneratedFragment
deriving DecidableEq

/-- All fragments carried by a stage list into the generated artifact. -/
def fragmentsOf (stages : List StageMetadata) : List GeneratedFragment :=
  (match findBoot stages with
   | some b => b.tools.map (fun t => GeneratedFragment.handler t.name)
   | none => []) ++
  (match findMod stages with
   | some m =>
       m.synthetic_tools.map (fun t => GeneratedFragment.orchestration t.name) ++
       (m.pass_through_tools.filter (fun t => codeTruthy t.input_transform_code)).map
         (fun t => GeneratedFragment.inputTransform t.exposed_name) ++
       (m.pass_through_tools.filter (fun t => codeTruthy t.output_transform_code)).map
         (fun t => GeneratedFragment.outputTransform t.exposed_name)
   | none => [])

/-- The evaluation site the emitted server uses for each fragment.  Note
that the site for a handler fragment is the single shared `runHandler`
function, which does not depend on WHICH tool owns the fragment: its sandbox
contains `fetch` whenever `hasNetwork stages` holds, i.e. whenever ANY boot
tool declared `needs_network` (codegen.ts lines 182, 245). -/
def fragmentExecSpec (stages : List StageMetadata) : GeneratedFragment → ExecSpec
  | .handler _ =>
      { mechanism := .freshVmContext
        bindings := "args" :: sharedSandboxBindings
          ++ (if hasNetwork stages then ["fetch"] else [])
        timeout_ms := some SANDBOX_TIMEOUT_MS
        exceptionsCaughtLocally := false }
  | .orchestration _ =>
      { mechanism := .freshVmContext
        bindings := "args" :: "callTool" :: sharedSandboxBindings
          ++ (if hasNetwork stages then ["fetch"] else [])
        timeout_ms := some SANDBOX_TIMEOUT_MS
        exceptionsCaughtLocally := false }
  | .inputTransform _ =>
      { mechanism := .hostFunction
        bindings := ["args"]
        timeout_ms := none
        exceptionsCaughtLocally := true }
  | .outputTransform _ =>
      { mechanism := .hostFunction
        bindings := ["result"]
        timeout_ms := none
        exceptionsCaughtLocally := true }

/-! ## The emitted dispatcher (`dispatchTool` in the generated server.js)

The generated server builds several JavaScript `Map`s at module load time by
successive `.set` calls; a later `set` on the same key overwrites an earlier
one.  `jsMapSet` models such a map.  Blocks that `generateServerJs` emits
only conditionally leave their `const` undeclared when skipped, and the
emitted dispatcher references some of those identifiers unconditionally; in
JavaScript (ES module, strict mode) evaluating an undeclared identifier
throws a ReferenceError, which the model surfaces as a thrown
`"<name> is not defined"`. -/

/-- A JavaScript `Map` populated by `map.set(k, v)` in list order (later
entries overwrite earlier ones), queried by `map.get(k)`. -/
def jsMapSet {α : Type} (entries : List (String × α)) : String → Option α :=
  entries.foldl (fun acc kv => fun k => if k = kv.1 then some kv.2 else acc k)
    (fun _ => none)

/-- The emitted `bootHandlers` map: tool name to the handler file's code
(codegen.ts lines 257-261; the handler file holds `handler_code` verbatim,
see `generateProjectFiles`). -/
def bootHandlers (b : BootData) : String → Option String :=
  jsMapSet (b.tools.map (fun t => (t.name, t.handler_code)))

/-- The emitted `callBootTool(name, args)` (codegen.ts lines 264-268): look
the handler code up and run it through `runHandler` (modelled by the oracle
`runH`), or throw `"Unknown boot tool: " + name`. -/
def callBootTool (b : BootData) (runH : String → Json → ExecResult Json)
    (name : String) (args : Json) : ExecResult Json :=
  match bootHandlers b name with
  | some code => runH code args
  | none => .thrown ("Unknown boot tool: " ++ name)

/-- The emitted `orchestrations` map (codegen.ts lines 286-290): synthetic
tool name to orchestration code.  The declaring block is emitted only when
`mod.synthetic_tools.length > 0`. -/
def orchestrationsMap (m : ModData) : String → Option String :=
  jsMapSet (m.synthetic_tools.map (fun t => (t.name, t.orchestration_code)))

/-- Whether the `const orchestrations` block is present in the emitted
server (codegen.ts line 285). -/
def orchestrationsDeclared (m : ModData) : Bool :=
  !m.synthetic_tools.isEmpty

/-- The emitted `toolRouting` map (codegen.ts lines 295-298):
`exposed_name -> upstream_name`, always declared when a mod stage exists. -/
def toolRouting (m : ModData) : String → Option String :=
  jsMapSet (m.pass_through_tools.map (fun t => (t.exposed_name, t.upstream_name)))

/-- The emitted `transforms` map (codegen.ts lines 276-280): exposed name to
the transform descriptor (the pair loaded from `transforms/<name>.json`,
which serializes both fields, null included).  Only pass-through tools whose
`input_transform_code || output_transform_code` is truthy get an entry. -/
def transformsMap (m : ModData) : String → Option (Option String × Option String) :=
  jsMapSet ((m.pass_through_tools.filter
      (fun t => codeTruthy t.input_transform_code || codeTruthy t.output_transform_code)).map
    (fun t => (t.exposed_name, (t.input_transform_code, t.output_transform_code))))

/-- Whether the `const transforms` block is present in the emitted server
(codegen.ts line 275). -/
def transformsDeclared (m : ModData) : Bool :=
  m.pass_through_tools.any
    (fun t => codeTruthy t.input_transform_code || codeTruthy t.output_transform_code)

/-- The structured tool-error payload the emitted dispatcher returns for an
unmatched name when the unknown-branch is emitted (codegen.ts line 364):
`{ content: [{ type: "text", text: "Unknown tool: " + name }], isError: true }`. -/
def unknownToolPayload (name : String) : Json :=
  Json.obj
    [("content", Json.arr
        [Json.obj [("type", Json.str "text"),
                   ("text", Json.str ("Unknown tool: " ++ name))]]),
     ("isError", Json.bool true)]

/-- The `callTool` capability bound into the orchestration sandbox
(codegen.ts line 310): `async (n, a) => callBootTool(n, a)`.  When no boot
stage exists, `callBootTool` is never declared and invoking the capability
hits a ReferenceError. -/
def callToolCapability (boot : Option BootData) (runH : String → Json → ExecResult Json) :
    String → Json → ExecResult Json :=
  fun n a =>
    match boot with
    | some b => callBootTool b runH n a
    | none => .thrown "callBootTool is not defined"

/-- Input-transform application inside the routed branch (codegen.ts lines
331-340): when the descriptor's `input_transform_code` is truthy, run
`new Function("args", code)` on `args` (oracle `evalFn`) inside a try/catch
that logs `"Input transform error for <name>: <err>"` and leaves `callArgs`
at the original `args`. -/
def applyInputTransform (evalFn : String → Json → ExecResult Json) (name : String)
    (code : Option String) (args : Json) : Json × List String :=
  match code with
  | some c =>
      if c != "" then
        match evalFn c args with
        | .ok v => (v, [])
        | .thrown e => (args, ["Input transform error for " ++ name ++ ": " ++ e])
      else (args, [])
  | none => (args, [])

/-- Output-transform application (codegen.ts lines 345-353), symmetric to
`applyInputTransform` over the upstream `result`. -/
def applyOutputTransform (evalFn : String → Json → ExecResult Json) (name : String)
    (code : Option String) (result : Json) : Json × List String :=
  match code with
  | some c =>
      if c != "" then
        match evalFn c result with
        | .ok v => (v, [])
        | .thrown e => (result, ["Output transform error for " ++ name ++ ": " ++ e])
      else (result, [])
  | none => (result, [])

/-- The routed-dispatch branch of the emitted `dispatchTool` (codegen.ts
lines 326-356), entered once `toolRouting.get(name)` produced
`upstreamName`.  Returns the dispatch result together with the
`console.error` log lines the call produced. -/
def routedDispatch (boot : Option BootData) (m : ModData)
    (runH evalFn : String → Json → ExecResult Json)
    (name upstreamName : String) (args : Json) : ExecResult Json × List String :=
  if transformsDeclared m then
    let tr := transformsMap m name
    let inCode := tr.bind (fun p => p.1)
    let outCode := tr.bind (fun p => p.2)
    let (callArgs, logs1) := applyInputTransform evalFn name inCode args
    match boot with
    | none => (.thrown "callBootTool is not defined", logs1)
    | some b =>
        match callBootTool b runH upstreamName callArgs with
        | .thrown e => (.thrown e, logs1)
        | .ok r =>
            let (r2, logs2) := applyOutputTransform evalFn name outCode r
            (.ok r2, logs1 ++ logs2)
  else
    -- `const transform = transforms ? transforms.get(name) : undefined;`
    -- with `transforms` never declared: ReferenceError.
    (.thrown "transforms is not defined", [])

/-- The emitted `dispatchTool(name, args)` (codegen.ts lines 303-367),
parameterized over the oracles for fragment evaluation: `runH` models one
`runHandler(code, args)` invocation, `evalOrch` models running orchestration
code in its sandbox given the bound `callTool` capability, and `evalFn`
models a `new Function(param, code)` transform invocation.  The second
component collects `console.error` output.  A `.thrown` result is a
rejection escaping `dispatchTool` (the emitted code installs no catch around
it), surfacing at the protocol layer instead of as a tool result. -/
def dispatchTool (stages : List StageMetadata)
    (runH : String → Json → ExecResult Json)
    (evalOrch : (String → Json → ExecResult Json) → String → Json → ExecResult Json)
    (evalFn : String → Json → ExecResult Json)
    (name : String) (args : Json) : ExecResult Json × List String :=
  let boot := findBoot stages
  match findMod stages with
  | some m =>
      if orchestrationsDeclared m then
        match orchestrationsMap m name with
        | some code =>
            (evalOrch (callToolCapability boot runH) code args, [])
        | none =>
            match toolRouting m name with
            | some upstreamName => routedDispatch boot m runH evalFn name upstreamName args
            | none => (.ok (unknownToolPayload name), [])
      else
        -- `if (orchestrations && orchestrations.has(name))` with
        -- `orchestrations` never declared: ReferenceError.
        (.thrown "orchestrations is not defined", [])
  | none =>
      match boot with
      | some b => (callBootTool b runH name args, [])
      | none => (.ok (unknownToolPayload name), [])

/-! ## The metadata crawler (`crawlPipeline` in export.ts)

`fetchMetadata` is modelled by a world function from addresses to metadata
documents; `none` covers every fatal fetch failure (unreachable address,
empty or malformed reply), which aborts the whole crawl with no partial
list.  The source's `while (currentUrl)` loop is given explicit fuel; a
well-formed (null-terminated) chain of length N completes within fuel N. -/

/-- One crawl loop (export.ts lines 136-142), returning the stages in
discovery order (most-downstream first) together with the trace of addresses
fetched, in fetch order. -/
def crawlSteps (world : String → Option StageMetadata) :
    Nat → String → Option (List StageMetadata × List String)
  | 0, _ => none
  | fuel + 1, url =>
      match world url with
      | none => none
      | some md =>
          match md.upstream_url with
          | none => some ([md], [url])
          | some next =>
              match crawlSteps world fuel next with
              | none => none
              | some (sts, trace) => some (md :: sts, url :: trace)

/-- `crawlPipeline(url)` (export.ts lines 134-147): run the loop, then
`stages.reverse()` so the root (boot) stage comes first. -/
def crawlPipeline (world : String → Option StageMetadata) (fuel : Nat) (url : String) :
    Option (List StageMetadata × List String) :=
  match crawlSteps world fuel url with
  | none => none
  | some (sts, trace) => some (sts.reverse, trace)

/-- A well-formed stage chain in `world`, starting at address `a`: each
address resolves to its document, each document's `upstream_url` points at
the next address, and the last document's pointer is null.  `addrs` and
`stages` are in discovery order (most-downstream first). -/
inductive Chain (world : String → Option StageMetadata) :
    String → List String → List StageMetadata → Prop where
  | last {a : String} {s : StageMetadata} :
      world a = some s → s.upstream_url = none → Chain world a [a] [s]
  | cons {a a' : String} {s : StageMetadata} {as : List String} {ss : List StageMetadata} :
      world a = some s → s.upstream_url = some a' → Chain world a' as ss →
      Chain world a (a :: as) (s :: ss)

/-- A chain starting at a given address is unique: the world function and
the upstream pointers determine the whole traversal. -/
theorem chain_unique {world : String → Option StageMetadata}
    {a : String} {as : List String} {ss : List StageMetadata}
    (h : Chain world a as ss) :
    ∀ {as' : List String} {ss' : List StageMetadata},
      Chain world a as' ss' → as = as' ∧ ss = ss' := by
  induction h with
  | last hw hup =>
      intro as' ss' h'
      cases h' with
      | last hw' hup' =>
          exact ⟨rfl, by rw [hw] at hw'; cases hw'; rfl⟩
      | cons hw' hup' _ =>
          rw [hw] at hw'; cases hw'
          rw [hup] at hup'; cases hup'
  | cons hw hup _ ih =>
      intro as' ss' h'
      cases h' with
      | last hw' hup' =>
          rw [hw] at hw'; cases hw'
          rw [hup] at hup'; cases hup'
      | cons hw' hup' htail =>
          rw [hw] at hw'; cases hw'
          rw [hup] at hup'; cases hup'
          obtain ⟨h1, h2⟩ := ih htail
          exact ⟨by rw [h1], by rw [h2]⟩

/-- Any member address of a chain starts its own (suffix) chain, no longer
than the original. -/
theorem chain_mem_suffix {world : String → Option StageMetadata} :
    ∀ {a b : String} {as : List String} {ss : List StageMetadata},
    Chain world a as ss → b ∈ as →
    ∃ bs ts, Chain world b bs ts ∧ bs.length ≤ as.length := by
  intro a b as ss h
  induction h with
  | last hw hup =>
      intro hb
      rcases List.mem_singleton.mp hb with rfl
      exact ⟨_, _, Chain.last hw hup, le_refl _⟩
  | cons hw hup htail ih =>
      intro hb
      rcases List.mem_cons.mp hb with rfl | hb'
      · exact ⟨_, _, Chain.cons hw hup htail, le_refl _⟩
      · obtain ⟨bs, ts, hc, hlen⟩ := ih hb'
        exact ⟨bs, ts, hc, le_trans hlen (Nat.le_succ _)⟩

/-- The addresses of a chain are pairwise distinct: a repeat would start a
second, strictly shorter chain from the same address, contradicting
uniqueness. -/
theorem chain_nodup {world : String → Option StageMetadata} :
    ∀ {a : String} {as : List String} {ss : List StageMetadata},
    Chain world a as ss → as.Nodup := by
  intro a as ss h
  induction h with
  | last _ _ => simp
  | cons hw hup htail ih =>
      refine List.nodup_cons.mpr ⟨?_, ih⟩
      intro hmem
      obtain ⟨bs, ts, hc, hlen⟩ := chain_mem_suffix htail hmem
      obtain ⟨h1, _⟩ := chain_unique hc (Chain.cons hw hup htail)
      rw [h1] at hlen
      simp at hlen

/-- `crawlSteps` follows a chain exactly: with fuel at least the chain
length it succeeds, returning the chain's stages in discovery order and
fetching exactly the chain's addresses in order. -/
theorem crawlSteps_chain {world : String → Option StageMetadata} :
    ∀ {a : String} {as : List String} {ss : List StageMetadata},
    Chain world a as ss → ∀ fuel : Nat, as.length ≤ fuel →
    crawlSteps world fuel a = some (ss, as) := by
  intro a as ss h
  induction h with
  | last hw hup =>
      intro fuel hfuel
      cases fuel with
      | zero => simp at hfuel
      | succ fuel => simp [crawlSteps, hw, hup]
  | cons hw hup htail ih =>
      intro fuel hfuel
      cases fuel with
      | zero => simp at hfuel
      | succ fuel =>
          simp only [List.length_cons, Nat.succ_le_succ_iff] at hfuel
          simp [crawlSteps, hw, hup, ih fuel hfuel]

/-! ## Textual code emission (`generateServerJs`, `generatePackageJson`,
`generateReadme`, `generateProject`)

The following definitions reproduce, byte for byte, the file contents the
synthesizer writes.  Fixed template fragments of `generateServerJs` are
transcribed verbatim from codegen.ts (literal braces of the emitted
JavaScript appear as the escapes \x7b and \x7d in the Lean string
literals).  `JSON.stringify` is modelled by `renderJson` (compact) and
`renderJsonP` (with `null, 2` pretty-printing). -/

/-- Lower-case hexadecimal digit, for `\u00..` escapes. -/
def hexDigit (n : Nat) : Char :=
  if n < 10 then Char.ofNat (48 + n) else Char.ofNat (87 + n)

/-- `JSON.stringify` escaping of one character of a string. -/
def jsonEscapeChar (c : Char) : String :=
  if c = '"' then "\\\""
  else if c = '\\' then "\\\\"
  else if c = '\n' then "\\n"
  else if c = '\r' then "\\r"
  else if c = '\t' then "\\t"
  else if c = '\x08' then "\\b"
  else if c = '\x0c' then "\\f"
  else if c.toNat < 32 then
    "\\u00" ++ String.singleton (hexDigit (c.toNat / 16)) ++
      String.singleton (hexDigit (c.toNat % 16))
  else String.singleton c

/-- `JSON.stringify` of a string: quoted and escaped. -/
def jsonQuote (s : String) : String :=
  "\"" ++ String.join (s.toList.map jsonEscapeChar) ++ "\""

mutual

/-- Compact `JSON.stringify(v)`. -/
def renderJson : Json → String
  | .null => "null"
  | .bool b => if b then "true" else "false"
  | .num n => toString n
  | .str s => jsonQuote s
  | .arr es => "[" ++ String.intercalate "," (renderJsonList es) ++ "]"
  | .obj fs => "\x7b" ++ String.intercalate "," (renderJsonFields fs) ++ "\x7d"

def renderJsonList : List Json → List String
  | [] => []
  | j :: js => renderJson j :: renderJsonList js

def renderJsonFields : List (String × Json) → List String
  | [] => []
  | (k, v) :: fs => (jsonQuote k ++ ":" ++ renderJson v) :: renderJsonFields fs

end

/-- The indentation string at nesting depth `d` for `JSON.stringify(v, null, 2)`. -/
def jsonIndent (d : Nat) : String := String.mk (List.replicate (2 * d) ' ')

mutual

/-- `JSON.stringify(v, null, 2)` at nesting depth `d`. -/
def renderJsonP : Nat → Json → String
  | _, .null => "null"
  | _, .bool b => if b then "true" else "false"
  | _, .num n => toString n
  | _, .str s => jsonQuote s
  | _, .arr [] => "[]"
  | d, .arr (e :: es) =>
      "[\n" ++
      String.intercalate ",\n"
        ((renderJsonPList (d + 1) (e :: es)).map (fun x => jsonIndent (d + 1) ++ x)) ++
      "\n" ++ jsonIndent d ++ "]"
  | _, .obj [] => "\x7b\x7d"
  | d, .obj (f :: fs) =>
      "\x7b\n" ++
      String.intercalate ",\n"
        ((renderJsonPFields (d + 1) (f :: fs)).map (fun x => jsonIndent (d + 1) ++ x)) ++
      "\n" ++ jsonIndent d ++ "\x7d"

def renderJsonPList : Nat → List Json → List String
  | _, [] => []
  | d, j :: js => renderJsonP d j :: renderJsonPList d js

def renderJsonPFields : Nat → List (String × Json) → List String
  | _, [] => []
  | d, (k, v) :: fs => (jsonQuote k ++ ": " ++ renderJsonP d v) :: renderJsonPFields d fs

end

/-- `writeJSON` (codegen.ts line 61): `JSON.stringify(data, null, 2) + "\n"`. -/
def writeJSONContent (j : Json) : String := renderJsonP 0 j ++ "\n"

/-- `generatePackageJson` (codegen.ts lines 69-84), as the JSON document it
returns. -/
def generatePackageJson (stages : List StageMetadata) : Json :=
  let stageNames := String.intercalate "+" (stages.map (fun s => s.stage))
  Json.obj
    [("name", .str "exported-mcp-server"),
     ("version", .str "1.0.0"),
     ("description", .str ("Standalone MCP server exported from mcpknife pipeline ("
        ++ stageNames ++ ")")),
     ("type", .str "module"),
     ("main", .str "server.js"),
     ("scripts", .obj [("start", .str "node server.js")]),
     ("dependencies", .obj [("@modelcontextprotocol/sdk", .str "^1.12.1")])]


/-- The per-stage section of the README (`generateReadme` loop body,
codegen.ts lines 105-131). -/
def readmeStageLines (s : StageMetadata) : List String :=
  ["### " ++ s.stage ++ " (v" ++ s.version ++ ")", ""] ++
  (match s.body with
   | .boot b =>
       ["Tools: " ++ String.intercalate ", " (b.tools.map (fun t => t.name))] ++
       (if b.whitelist_domains.length > 0 then
         ["Network domains: " ++ String.intercalate ", " b.whitelist_domains]
        else [])
   | .mod m =>
       (if m.pass_through_tools.length > 0 then
         ["Pass-through: " ++
            String.intercalate ", " (m.pass_through_tools.map (fun t => t.exposed_name))]
        else []) ++
       (if m.synthetic_tools.length > 0 then
         ["Synthetic: " ++ String.intercalate ", " (m.synthetic_tools.map (fun t => t.name))]
        else []) ++
       (if m.hidden_tools.length > 0 then
         ["Hidden: " ++ String.intercalate ", " m.hidden_tools]
        else [])
   | .ui u =>
       ["UI resources: " ++ String.intercalate ", " (u.ui_resources.map (fun r => r.tool_name))]) ++
  [""]

/-- `generateReadme` (codegen.ts lines 86-134). -/
def generateReadme (stages : List StageMetadata) : String :=
  String.intercalate "\n"
    (["# Exported MCP Server",
      "",
      "Standalone server exported from a mcpknife pipeline with " ++
        toString stages.length ++ " stage(s).",
      "",
      "## Quick Start",
      "",
      "```bash",
      "npm install",
      "node server.js",
      "```",
      "",
      "The server listens on `http://localhost:${PORT}/mcp` (default PORT=8000).",
      "",
      "## Pipeline Stages",
      ""] ++
     (stages.map readmeStageLines).flatten)

/-- The emitted `isAllowed`/`whitelistedFetch` block (codegen.ts lines
218-232), present only when `hasNetwork`. -/
def serverNetBlock : String :=
  String.intercalate "\n"
   ["function isAllowed(url) \x7b",
    "  try \x7b",
    "    const hostname = new URL(url).hostname;",
    "    return WHITELIST_DOMAINS.some(d => hostname === d || hostname.endsWith(\".\" + d));",
    "  \x7d catch \x7b",
    "    return false;",
    "  \x7d",
    "\x7d",
    "",
    "const whitelistedFetch = (url, opts) => \x7b",
    "  if (!isAllowed(url)) \x7b",
    "    throw new Error(\"Network access denied: \" + url);",
    "  \x7d",
    "  return fetch(url, opts);",
    "\x7d;"]

/-- The emitted sandbox runner block (codegen.ts lines 237-252); the
`fetch: whitelistedFetch` sandbox entry is inserted only when `hasNetwork`. -/
def serverSandboxRunner (hasNet : Bool) : String :=
  String.intercalate "\n"
   ["const SANDBOX_TIMEOUT_MS = 30000;",
    "",
    "function runHandler(code, args) \x7b",
    "  const sandbox = \x7b",
    "    args,",
    "    JSON, Math, String, Number, Boolean, Array, Object, Map, Set,",
    "    Date, RegExp, parseInt, parseFloat, isNaN, isFinite,",
    "    structuredClone, console: \x7b log: console.log \x7d,",
    "    Promise,"]
  ++ (if hasNet then "\n    fetch: whitelistedFetch," else "") ++
  String.intercalate "\n"
   ["",
    "  \x7d;",
    "",
    "  const context = vm.createContext(sandbox);",
    "  const wrappedCode = \"(async function(args) \x7b \" + code + \" \x7d)(args)\";",
    "  const script = new vm.Script(wrappedCode);",
    "  return script.runInContext(context, \x7b timeout: SANDBOX_TIMEOUT_MS \x7d);",
    "\x7d"]

/-- The emitted `callBootTool` (codegen.ts lines 264-268). -/
def serverCallBootTool : String :=
  String.intercalate "\n"
   ["async function callBootTool(name, args) \x7b",
    "  const code = bootHandlers.get(name);",
    "  if (!code) throw new Error(\"Unknown boot tool: \" + name);",
    "  return runHandler(code, args);",
    "\x7d"]

/-- The synthetic-tools branch of the emitted dispatcher (codegen.ts lines
307-322). -/
def serverSyntheticBranch (hasNet : Bool) : String :=
  String.intercalate "\n"
   ["  // Synthetic tools",
    "  if (orchestrations && orchestrations.has(name)) \x7b",
    "    const code = orchestrations.get(name);",
    "    const callTool = async (n, a) => callBootTool(n, a);",
    "    const sandbox = \x7b",
    "      args, callTool,",
    "      JSON, Math, String, Number, Boolean, Array, Object, Map, Set,",
    "      Date, RegExp, parseInt, parseFloat, isNaN, isFinite,",
    "      structuredClone, console: \x7b log: console.log \x7d,",
    "      Promise,"]
  ++ (if hasNet then "\n      fetch: whitelistedFetch," else "") ++
  String.intercalate "\n"
   ["",
    "    \x7d;",
    "    const context = vm.createContext(sandbox);",
    "    const wrappedCode = \"(async function(args, callTool) \x7b \" + code + \" \x7d)(args, callTool)\";",
    "    const script = new vm.Script(wrappedCode);",
    "    return script.runInContext(context, \x7b timeout: SANDBOX_TIMEOUT_MS \x7d);",
    "  \x7d"]

/-- The routed (pass-through/modified) branch of the emitted dispatcher
(codegen.ts lines 326-356). -/
def serverRoutedBranch : String :=
  String.intercalate "\n"
   ["  // Pass-through and modified tools",
    "  const upstreamName = toolRouting.get(name);",
    "  if (upstreamName !== undefined) \x7b",
    "    let callArgs = args;",
    "",
    "    // Apply input transform if present",
    "    const transform = transforms ? transforms.get(name) : undefined;",
    "    if (transform && transform.input_transform_code) \x7b",
    "      try \x7b",
    "        const fn = new Function(\"args\", transform.input_transform_code);",
    "        callArgs = fn(args);",
    "      \x7d catch (err) \x7b",
    "        console.error(\"Input transform error for \" + name + \": \" + err);",
    "      \x7d",
    "    \x7d",
    "",
    "    // Call boot handler",
    "    let result = await callBootTool(upstreamName, callArgs);",
    "",
    "    // Apply output transform if present",
    "    if (transform && transform.output_transform_code) \x7b",
    "      try \x7b",
    "        const fn = new Function(\"result\", transform.output_transform_code);",
    "        result = fn(result);",
    "      \x7d catch (err) \x7b",
    "        console.error(\"Output transform error for \" + name + \": \" + err);",
    "      \x7d",
    "    \x7d",
    "",
    "    return result;",
    "  \x7d"]

/-- The first emitted HTTP-server section (codegen.ts lines 388-418); the
`, resources: \x7b\x7d` capability is inserted when a ui stage exists. -/
def serverHttpBlock (uiPresent : Bool) : String :=
  String.intercalate "\n"
   ["const PORT = parseInt(process.env.PORT || \"8000\", 10);",
    "",
    "const httpServer = http.createServer(async (req, res) => \x7b",
    "  res.setHeader(\"Access-Control-Allow-Origin\", \"*\");",
    "  res.setHeader(\"Access-Control-Allow-Methods\", \"GET, POST, OPTIONS\");",
    "  res.setHeader(\"Access-Control-Allow-Headers\", \"Content-Type, mcp-session-id\");",
    "",
    "  if (req.method === \"OPTIONS\") \x7b",
    "    res.writeHead(204);",
    "    res.end();",
    "    return;",
    "  \x7d",
    "",
    "  if (req.method === \"POST\" && (req.url === \"/mcp\" || req.url === \"/\")) \x7b",
    "    const mcpServer = new Server(",
    "      \x7b name: \"exported-mcp-server\", version: \"1.0.0\" \x7d,",
    "      \x7b capabilities: \x7b tools: \x7b\x7d"]
  ++ (if uiPresent then ", resources: \x7b\x7d" else "") ++
  String.intercalate "\n"
   [" \x7d \x7d,",
    "    );",
    "",
    "    mcpServer.setRequestHandler(ListToolsRequestSchema, async () => (\x7b",
    "      tools: TOOLS.map(t => (\x7b",
    "        name: t.name,",
    "        description: t.description,",
    "        inputSchema: t.inputSchema,",
    "      \x7d)),",
    "    \x7d));",
    "",
    "    mcpServer.setRequestHandler(CallToolRequestSchema, async (request) => \x7b",
    "      const \x7b name, arguments: args \x7d = request.params;",
    "      return dispatchTool(name, args || \x7b\x7d);",
    "    \x7d);"]

/-- The resource request handlers (codegen.ts lines 421-438), emitted when
the ui stage carries at least one resource. -/
def serverUiHandlersBlock : String :=
  String.intercalate "\n"
   ["",
    "    mcpServer.setRequestHandler(ListResourcesRequestSchema, async () => (\x7b",
    "      resources: Array.from(uiResources.entries()).map(([uri, r]) => (\x7b",
    "        uri,",
    "        name: r.toolName + \" UI\",",
    "        description: \"Generated interactive UI for \" + r.toolName,",
    "        mimeType: \"text/html\",",
    "      \x7d)),",
    "    \x7d));",
    "",
    "    mcpServer.setRequestHandler(ReadResourceRequestSchema, async (request) => \x7b",
    "      const uri = request.params.uri;",
    "      const resource = uiResources.get(uri);",
    "      if (!resource) throw new Error(\"Unknown resource: \" + uri);",
    "      return \x7b",
    "        contents: [\x7b uri, mimeType: \"text/html\", text: resource.html \x7d],",
    "      \x7d;",
    "    \x7d);"]

/-- The final emitted section: transport plumbing, health probe, listen,
signal handlers (codegen.ts lines 441-478). -/
def serverFinalBlock : String :=
  String.intercalate "\n"
   ["",
    "    const transport = new StreamableHTTPServerTransport(\x7b sessionIdGenerator: undefined \x7d);",
    "    try \x7b",
    "      const chunks = [];",
    "      for await (const chunk of req) chunks.push(chunk);",
    "      const body = JSON.parse(Buffer.concat(chunks).toString());",
    "      await mcpServer.connect(transport);",
    "      await transport.handleRequest(req, res, body);",
    "      res.on(\"close\", () => \x7b",
    "        transport.close();",
    "        mcpServer.close();",
    "      \x7d);",
    "    \x7d catch (error) \x7b",
    "      if (!res.headersSent) \x7b",
    "        res.writeHead(500, \x7b \"Content-Type\": \"application/json\" \x7d);",
    "        res.end(JSON.stringify(\x7b",
    "          jsonrpc: \"2.0\",",
    "          error: \x7b code: -32603, message: String(error) \x7d,",
    "          id: null,",
    "        \x7d));",
    "      \x7d",
    "    \x7d",
    "  \x7d else if (req.method === \"GET\" && req.url === \"/health\") \x7b",
    "    res.writeHead(200, \x7b \"Content-Type\": \"application/json\" \x7d);",
    "    res.end(JSON.stringify(\x7b status: \"ok\", tools: TOOLS.length \x7d));",
    "  \x7d else \x7b",
    "    res.writeHead(404);",
    "    res.end(\"Not found\");",
    "  \x7d",
    "\x7d);",
    "",
    "httpServer.listen(PORT, () => \x7b",
    "  console.log(\"Exported MCP server listening on http://localhost:\" + PORT + \"/mcp\");",
    "  console.log(\"Serving \" + TOOLS.length + \" tool(s)\");",
    "\x7d);",
    "",
    "process.on(\"SIGINT\", () => \x7b httpServer.close(); process.exit(0); \x7d);",
    "process.on(\"SIGTERM\", () => \x7b httpServer.close(); process.exit(0); \x7d);"]

/-- The emitted import lines (codegen.ts lines 188-203). -/
def serverImportLines (uiPresent : Bool) : List String :=
  ["import \x7b Server \x7d from \"@modelcontextprotocol/sdk/server/index.js\";",
     "import \x7b StreamableHTTPServerTransport \x7d from \"@modelcontextprotocol/sdk/server/streamableHttp.js\";",
     "import \x7b ListToolsRequestSchema, CallToolRequestSchema \x7d from \"@modelcontextprotocol/sdk/types.js\";",
     "import http from \"node:http\";",
     "import vm from \"node:vm\";",
     "import \x7b readFileSync \x7d from \"node:fs\";",
     "import \x7b fileURLToPath \x7d from \"node:url\";",
     "import path from \"node:path\";"] ++
  (if uiPresent then
    ["import \x7b ListResourcesRequestSchema, ReadResourceRequestSchema \x7d from \"@modelcontextprotocol/sdk/types.js\";"]
   else [])

/-- One exposed tool as the JavaScript object serialized into the `TOOLS`
literal. -/
def exposedToolJson (t : ExposedTool) : Json :=
  Json.obj [("name", .str t.name), ("description", .str t.description),
            ("inputSchema", t.inputSchema)]

/-- `generateServerJs` (codegen.ts lines 177-481): the complete text of the
emitted server.js, assembled exactly as the source pushes `parts` and joins
them with newlines. -/
def generateServerJs (stages : List StageMetadata) : String :=
  let boot := findBoot stages
  let md := findMod stages
  let ui := findUI stages
  let hasNet := hasNetwork stages
  let whitelistDomains := match boot with | some b => b.whitelist_domains | none => []
  let exposedTools := getExposedTools stages
  let parts : List String :=
    [String.intercalate "\n" (serverImportLines ui.isSome),
     "",
     "const __filename = fileURLToPath(import.meta.url);",
     "const __dirname = path.dirname(__filename);",
     ""] ++
    (if hasNet then
      ["const WHITELIST_DOMAINS = " ++
         renderJson (Json.arr (whitelistDomains.map Json.str)) ++ ";",
       "",
       serverNetBlock,
       ""]
     else []) ++
    [serverSandboxRunner hasNet, ""] ++
    (match boot with
     | some b =>
         ["// Boot tool handlers\nconst bootHandlers = new Map();\n" ++
            String.intercalate "\n" (b.tools.map (fun t =>
              "bootHandlers.set(" ++ jsonQuote t.name ++
              ", readFileSync(path.join(__dirname, \"handlers\", " ++
              jsonQuote (t.name ++ ".js") ++ "), \"utf-8\"));")),
          "",
          serverCallBootTool,
          ""]
     | none => []) ++
    (match md with
     | some m =>
         (if m.pass_through_tools.any (fun t =>
              codeTruthy t.input_transform_code || codeTruthy t.output_transform_code) then
           ["// Mod transforms\nconst transforms = new Map();\n" ++
              String.intercalate "\n" ((m.pass_through_tools.filter (fun t =>
                  codeTruthy t.input_transform_code || codeTruthy t.output_transform_code)).map
                (fun t =>
                  "transforms.set(" ++ jsonQuote t.exposed_name ++
                  ", JSON.parse(readFileSync(path.join(__dirname, \"transforms\", " ++
                  jsonQuote (t.exposed_name ++ ".json") ++ "), \"utf-8\")));")),
            ""]
          else []) ++
         (if m.synthetic_tools.length > 0 then
           ["// Synthetic tool orchestrations\nconst orchestrations = new Map();\n" ++
              String.intercalate "\n" (m.synthetic_tools.map (fun t =>
                "orchestrations.set(" ++ jsonQuote t.name ++
                ", readFileSync(path.join(__dirname, \"orchestrations\", " ++
                jsonQuote (t.name ++ ".js") ++ "), \"utf-8\"));")),
            ""]
          else []) ++
         (["const toolRouting = new Map();"] ++
          m.pass_through_tools.map (fun t =>
            "toolRouting.set(" ++ jsonQuote t.exposed_name ++ ", " ++
            jsonQuote t.upstream_name ++ ");") ++
          [""])
     | none => []) ++
    ["async function dispatchTool(name, args) \x7b"] ++
    (match md with
     | some _ => [serverSyntheticBranch hasNet, "", serverRoutedBranch, ""]
     | none => []) ++
    [(match boot, md with
      | some _, none => "  return callBootTool(name, args);"
      | _, _ =>
          "  return \x7b content: [\x7b type: \"text\", text: \"Unknown tool: \" + name \x7d], isError: true \x7d;")] ++
    ["\x7d", ""] ++
    ["const TOOLS = " ++ renderJsonP 0 (Json.arr (exposedTools.map exposedToolJson)) ++ ";",
     ""] ++
    (match ui with
     | some u =>
         if u.ui_resources.length > 0 then
           ["// UI resources\nconst uiResources = new Map();\n" ++
              String.intercalate "\n" (u.ui_resources.map (fun r =>
                "uiResources.set(" ++ jsonQuote r.resource_uri ++ ", \x7b\n  toolName: " ++
                jsonQuote r.tool_name ++ ",\n  html: readFileSync(path.join(__dirname, \"ui\", " ++
                jsonQuote (r.tool_name ++ ".html") ++ "), \"utf-8\"),\n\x7d);")),
            ""]
         else []
     | none => []) ++
    [serverHttpBlock ui.isSome] ++
    (match ui with
     | some u => if u.ui_resources.length > 0 then [serverUiHandlersBlock] else []
     | none => []) ++
    [serverFinalBlock]
  String.intercalate "\n" parts

/-- The transform descriptor document written for one modified routing entry
(codegen.ts lines 512-515): both fields serialized, null (not omitted) when
absent. -/
def transformDescriptor (t : PassThroughTool) : Json :=
  Json.obj [("input_transform_code",
               match t.input_transform_code with | none => Json.null | some s => Json.str s),
            ("output_transform_code",
               match t.output_transform_code with | none => Json.null | some s => Json.str s)]

/-- `generateProject` (codegen.ts lines 483-543) as the list of file writes
it performs, in program order, as (path relative to the output directory,
exact byte content) pairs: package.json, one handler file per boot tool
(the fragment verbatim), one transform descriptor per modified routing
entry, one orchestration file per synthetic tool (verbatim), one markup
file per UI resource (verbatim), server.js, README.md. -/
def generateProjectFiles (stages : List StageMetadata) : List (String × String) :=
  [("package.json", writeJSONContent (generatePackageJson stages))] ++
  (match findBoot stages with
   | some b => b.tools.map (fun t => ("handlers/" ++ t.name ++ ".js", t.handler_code))
   | none => []) ++
  (match findMod stages with
   | some m =>
       (m.pass_through_tools.filter (fun t =>
           codeTruthy t.input_transform_code || codeTruthy t.output_transform_code)).map
         (fun t => ("transforms/" ++ t.exposed_name ++ ".json",
                    writeJSONContent (transformDescriptor t))) ++
       m.synthetic_tools.map (fun t =>
         ("orchestrations/" ++ t.name ++ ".js", t.orchestration_code))
   | none => []) ++
  (match findUI stages with
   | some u => u.ui_resources.map (fun r => ("ui/" ++ r.tool_name ++ ".html", r.html))
   | none => []) ++
  [("server.js", generateServerJs stages),
   ("README.md", generateReadme stages)]

/-- The final content of the file at `path` after all writes of
`generateProjectFiles` complete: the filesystem keeps the LAST write to a
path. -/
def lookupFile (files : List (String × String)) (path : String) : Option String :=
  jsMapSet files path

/-! ## Helper lemmas -/

/-- Unfolding a `jsMapSet` fold from an arbitrary base lookup. -/
theorem jsMapSet_foldl {α : Type} (l : List (String × α)) :
    ∀ (g : String → Option α) (k : String),
    (l.foldl (fun acc kv => fun q => if q = kv.1 then some kv.2 else acc q) g) k
      = match jsMapSet l k with
        | some v => some v
        | none => g k := by
  induction l with
  | nil => intro g k; simp [jsMapSet]
  | cons hd tl ih =>
      intro g k
      have hL : ((hd :: tl).foldl
            (fun acc kv => fun q => if q = kv.1 then some kv.2 else acc q) g) k
          = match jsMapSet tl k with
            | some v => some v
            | none => if k = hd.1 then some hd.2 else g k := by
        rw [List.foldl_cons, ih]
      have hR : jsMapSet (hd :: tl) k
          = match jsMapSet tl k with
            | some v => some v
            | none => if k = hd.1 then some hd.2 else none := by
        unfold jsMapSet
        rw [List.foldl_cons, ih]
        rfl
      rw [hL, hR]
      cases jsMapSet tl k with
      | some v => rfl
      | none => by_cases hk : k = hd.1 <;> simp [hk]

/-- A `jsMapSet` over a concatenation: later entries win. -/
theorem jsMapSet_append {α : Type} (l₁ l₂ : List (String × α)) (k : String) :
    jsMapSet (l₁ ++ l₂) k
      = match jsMapSet l₂ k with
        | some v => some v
        | none => jsMapSet l₁ k := by
  unfold jsMapSet
  rw [List.foldl_append]
  exact jsMapSet_foldl l₂ _ k

/-- Peeling one entry off a `jsMapSet`. -/
theorem jsMapSet_cons {α : Type} (hd : String × α) (tl : List (String × α)) (k : String) :
    jsMapSet (hd :: tl) k
      = match jsMapSet tl k with
        | some v => some v
        | none => if k = hd.1 then some hd.2 else none := by
  show jsMapSet ([hd] ++ tl) k = _
  rw [jsMapSet_append]
  cases jsMapSet tl k <;> simp [jsMapSet]

/-- A key absent from the entry list resolves to nothing. -/
theorem jsMapSet_eq_none {α : Type} (l : List (String × α)) (k : String)
    (h : ∀ kv ∈ l, k ≠ kv.1) : jsMapSet l k = none := by
  induction l with
  | nil => rfl
  | cons hd tl ih =>
      rw [jsMapSet_cons, ih (fun kv hkv => h kv (List.mem_cons_of_mem hd hkv))]
      simp [h hd (List.mem_cons_self hd tl)]

/-- In a keyed map built from a list with pairwise-distinct keys, every
element resolves to its own value. -/
theorem jsMapSet_map_eq_of_nodup {α β : Type} (fkey : α → String) (fval : α → β) :
    ∀ (l : List α), (l.map fkey).Nodup → ∀ a ∈ l,
    jsMapSet (l.map (fun x => (fkey x, fval x))) (fkey a) = some (fval a) := by
  intro l
  induction l with
  | nil => intro _ a ha; cases ha
  | cons hd tl ih =>
      intro hnd a ha
      have hnd2 : fkey hd ∉ tl.map fkey ∧ (tl.map fkey).Nodup := by
        rw [List.map_cons, List.nodup_cons] at hnd
        exact hnd
      rw [List.map_cons, jsMapSet_cons]
      rcases List.mem_cons.mp ha with rfl | hmem
      · have hnone : jsMapSet (tl.map (fun x => (fkey x, fval x))) (fkey a) = none := by
          apply jsMapSet_eq_none
          intro kv hkv hke
          rcases List.mem_map.mp hkv with ⟨x, hx, rfl⟩
          exact hnd2.1 (hke ▸ List.mem_map_of_mem fkey hx)
        rw [hnone]
        simp
      · rw [ih hnd2.2 a hmem]

/-- The synthetic-orchestrations map has an entry only when the mod stage
has synthetic tools, i.e. only when the emitted `orchestrations` constant is
declared at all. -/
theorem orchestrationsDeclared_of_map (m : ModData) (name code : String)
    (h : orchestrationsMap m name = some code) : orchestrationsDeclared m = true := by
  unfold orchestrationsDeclared
  cases hs : m.synthetic_tools with
  | nil =>
      unfold orchestrationsMap at h
      rw [hs] at h
      simp [jsMapSet] at h
  | cons hd tl => simp

/-- A chain pairs one fetched address with one stage document. -/
theorem chain_length {world : String → Option StageMetadata} :
    ∀ {a : String} {as : List String} {ss : List StageMetadata},
    Chain world a as ss → ss.length = as.length := by
  intro a as ss h
  induction h with
  | last _ _ => rfl
  | cons _ _ _ ih => simpa using ih

/-- Lengths add over string concatenation of the handler path pieces. -/
theorem handlersPath_length (n : String) :
    ("handlers/" ++ n ++ ".js").length = n.length + 12 := by
  have h9 : ("handlers/" : String).length = 9 := rfl
  have h3 : (".js" : String).length = 3 := rfl
  rw [String.length_append, String.length_append, h9, h3]
  omega

/-- Handler file paths of distinct tool names are distinct. -/
theorem handlersPath_injective :
    Function.Injective (fun n : String => "handlers/" ++ n ++ ".js") := by
  intro a b h
  simp only [] at h
  have h2 : ("handlers/".data ++ a.data) ++ ".js".data
      = ("handlers/".data ++ b.data) ++ ".js".data := by
    have hd := congrArg String.data h
    simpa [String.data_append] using hd
  have h3 := List.append_cancel_right h2
  have h4 := List.append_cancel_left h3
  exact String.ext h4

/-- A handler file path never collides with a shorter fixed path. -/
theorem handlersPath_ne_short (n t : String) (hlen : t.length < 12) :
    "handlers/" ++ n ++ ".js" ≠ t := by
  intro h
  have hl := congrArg String.length h
  rw [handlersPath_length] at hl
  omega

/-! ## Concrete fixtures (used by witnesses and counterexamples) -/

/-- A pure boot tool. -/
def fixGreet : BootTool :=
  { name := "greet", description := "Say hello",
    input_schema := Json.obj [("type", Json.str "object")],
    handler_code := "return 1;", needs_network := false }

/-- A network-needing boot tool. -/
def fixLookup : BootTool :=
  { name := "lookup", description := "Look a word up",
    input_schema := Json.obj [("type", Json.str "object")],
    handler_code := "return 2;", needs_network := true }

/-- Payload of the two-tool boot stage. -/
def fixBootNetData : BootData :=
  { whitelist_domains := ["api.example.com"], tools := [fixGreet, fixLookup] }

/-- A boot stage with one pure and one network-needing tool. -/
def fixBootNet : StageMetadata :=
  { body := .boot fixBootNetData, version := "0.1.2", upstream_url := none }

/-- Payload of the single-tool boot stage. -/
def fixBootOnlyData : BootData :=
  { whitelist_domains := [], tools := [fixGreet] }

/-- A boot stage with a single pure tool. -/
def fixBootOnly : StageMetadata :=
  { body := .boot fixBootOnlyData, version := "0.1.2", upstream_url := none }

/-- A routing entry with both transform fragments present. -/
def fixPassFind : PassThroughTool :=
  { exposed_name := "find", upstream_name := "lookup",
    exposed_schema := Json.obj [("type", Json.str "object")],
    description := some "Find a word",
    input_transform_code := some "return args;",
    output_transform_code := some "return result;" }

/-- A synthetic tool orchestrating a boot tool. -/
def fixSynthLoud : SyntheticTool :=
  { name := "greet_loudly", description := "Greet in caps",
    input_schema := Json.obj [("type", Json.str "object")],
    orchestration_code := "return callTool(\"greet\", args);",
    upstream_tools_used := ["greet"] }

/-- A second synthetic tool, which tries to call the first. -/
def fixSynthOther : SyntheticTool :=
  { name := "other_synth", description := "Calls the other synthetic",
    input_schema := Json.obj [("type", Json.str "object")],
    orchestration_code := "return callTool(\"greet_loudly\", args);",
    upstream_tools_used := [] }

/-- Payload of the mod stage: hides `greet`, routes `find`, defines two
synthetic tools. -/
def fixModData : ModData :=
  { hidden_tools := ["greet"],
    pass_through_tools := [fixPassFind],
    synthetic_tools := [fixSynthLoud, fixSynthOther] }

/-- The mod stage of the boot+mod fixture. -/
def fixMod : StageMetadata :=
  { body := .mod fixModData, version := "0.2.0", upstream_url := some "http://root/mcp" }

/-- The boot+mod pipeline fixture. -/
def fixStages : List StageMetadata := [fixBootNet, fixMod]

/-- A routing entry whose exposed name collides with a hidden name. -/
def fixPassX : PassThroughTool :=
  { exposed_name := "x", upstream_name := "greet",
    exposed_schema := Json.obj [("type", Json.str "object")],
    description := none, input_transform_code := none, output_transform_code := none }

/-- A mod stage that hides the name `x` while also exposing a routed tool
under that very name. -/
def fixModHiddenClash : StageMetadata :=
  { body := .mod { hidden_tools := ["x"],
                   pass_through_tools := [fixPassX],
                   synthetic_tools := [] },
    version := "0.2.0", upstream_url := some "http://root/mcp" }

/-- Two boot tools sharing one name with different fragments. -/
def fixDup1 : BootTool :=
  { name := "dup", description := "first", input_schema := Json.obj [],
    handler_code := "return 1;", needs_network := false }

/-- Second tool of the duplicate-name pair. -/
def fixDup2 : BootTool :=
  { name := "dup", description := "second", input_schema := Json.obj [],
    handler_code := "return 2;", needs_network := false }

/-- A boot-only stage carrying the duplicate-name pair. -/
def fixBootDup : StageMetadata :=
  { body := .boot { whitelist_domains := [], tools := [fixDup1, fixDup2] },
    version := "1.0.0", upstream_url := none }

/-- A two-node world: the mod stage at one address pointing back at the boot
stage at another. -/
def fixWorld : String → Option StageMetadata :=
  fun u =>
    if u = "http://mod/mcp" then some fixMod
    else if u = "http://root/mcp" then some fixBootNet
    else none

/-- Trivial handler-evaluation oracle: every fragment returns null. -/
def oracleNull : String → Json → ExecResult Json := fun _ _ => .ok Json.null

/-- Trivial orchestration-evaluation oracle. -/
def oracleOrchNull : (String → Json → ExecResult Json) → String → Json → ExecResult Json :=
  fun _ _ _ => .ok Json.null

/-! ## Claim theorems -/

/-- C4: for every chain of N stages each reachable at its address and
terminating at a stage whose upstream pointer is null, `crawlPipeline`
visits each address exactly once (the fetch trace is exactly the chain's
addresses, in order and without repetition — the loop is inherently
sequential, each fetch's address coming from the previous document), and
returns the stage list of length N reversed from discovery order, i.e.
root-first. -/
theorem crawl_visits_once_root_first
    (world : String → Option StageMetadata) (a : String)
    (addrs : List String) (stages : List StageMetadata)
    (hchain : Chain world a addrs stages) (fuel : Nat) (hfuel : addrs.length ≤ fuel) :
    crawlPipeline world fuel a = some (stages.reverse, addrs) ∧
    addrs.Nodup ∧
    stages.length = addrs.length := by
  refine ⟨?_, chain_nodup hchain, chain_length hchain⟩
  unfold crawlPipeline
  rw [crawlSteps_chain hchain fuel hfuel]

/-- Witness for C4 on the concrete two-stage world. -/
theorem crawl_visits_once_root_first_witness :
    crawlPipeline fixWorld 2 "http://mod/mcp"
      = some ([fixBootNet, fixMod], ["http://mod/mcp", "http://root/mcp"]) ∧
    (["http://mod/mcp", "http://root/mcp"] : List String).Nodup ∧
    ([fixMod, fixBootNet] : List StageMetadata).length
      = (["http://mod/mcp", "http://root/mcp"] : List String).length := by
  have hchain : Chain fixWorld "http://mod/mcp"
      ["http://mod/mcp", "http://root/mcp"] [fixMod, fixBootNet] :=
    Chain.cons rfl rfl (Chain.last rfl rfl)
  have h := crawl_visits_once_root_first fixWorld "http://mod/mcp"
    ["http://mod/mcp", "http://root/mcp"] [fixMod, fixBootNet] hchain 2 (by decide)
  exact ⟨by simpa using h.1, h.2.1, h.2.2⟩

/-- C5: the synthesizer is a pure function of the ordered stage list — two
invocations on identical input produce byte-identical generated files (the
full write list: manifest, handler files, transform descriptors,
orchestration files, markup files, runtime module).  In this embedding every
byte of `generateProjectFiles` is computed from the stage list alone,
mirroring the source, which consults no clock, randomness or ambient
state. -/
theorem synthesize_deterministic (s t : List StageMetadata) (h : s = t) :
    generateProjectFiles s = generateProjectFiles t := by rw [h]

/-- Witness for C5 at the concrete boot+mod fixture. -/
theorem synthesize_deterministic_witness :
    fixStages = fixStages ∧
    generateProjectFiles fixStages = generateProjectFiles fixStages :=
  ⟨rfl, synthesize_deterministic fixStages fixStages rfl⟩

/-- C6 counterexample: the claim "no exposed tool's name is in the hidden
set" fails — `getExposedTools` never consults `hidden_tools`, so a routed
tool exposed under the very name the mod stage hides is still listed.
Concretely, with `hidden_tools = ["x"]` and one routing entry whose
`exposed_name` is `"x"`, the exposed listing is exactly `["x"]`. -/
theorem exposed_hidden_name_counterexample :
    findMod [fixBootOnly, fixModHiddenClash]
      = some { hidden_tools := ["x"], pass_through_tools := [fixPassX],
               synthetic_tools := [] } ∧
    (getExposedTools [fixBootOnly, fixModHiddenClash]).map (fun t => t.name) = ["x"] ∧
    "x" ∈ (["x"] : List String) :=
  ⟨rfl, rfl, by simp⟩

/-- C6 (amended): with a mod stage present, the exposed tool count is
`k + m` (routed plus synthetic) and the exposed names are exactly the
routing entries' exposed names followed by the synthetic names — so every
RootStage tool, routed or not, hidden or not, is dropped from direct
exposure without any error (the listing is a total function of the mod
stage alone); the hidden set, however, is never consulted, so an exposed
name may coincide with a hidden name. -/
theorem exposed_tools_mod_amended (stages : List StageMetadata) (m : ModData)
    (h : findMod stages = some m) :
    (getExposedTools stages).length
      = m.pass_through_tools.length + m.synthetic_tools.length ∧
    (getExposedTools stages).map (fun t => t.name)
      = m.pass_through_tools.map (fun t => t.exposed_name)
        ++ m.synthetic_tools.map (fun t => t.name) := by
  unfold getExposedTools
  rw [h]
  constructor
  · simp
  · simp only [List.map_append, List.map_map]
    rfl

/-- Witness for the amended C6 at the concrete boot+mod fixture. -/
theorem exposed_tools_mod_amended_witness :
    findMod fixStages = some fixModData ∧
    (getExposedTools fixStages).length = 1 + 2 ∧
    (getExposedTools fixStages).map (fun t => t.name)
      = ["find", "greet_loudly", "other_synth"] := by
  have h := exposed_tools_mod_amended fixStages fixModData rfl
  exact ⟨rfl, by simpa using h.1, by simpa [fixModData, fixPassFind, fixSynthLoud, fixSynthOther] using h.2⟩

/-- C9 counterexample: the verbatim-file conjunct fails when two RootStage
tools share a name — both fragments target the same handler path, the later
write overwrites the earlier, and the first exposed tool's fragment is no
longer the content of its named file. -/
theorem handler_overwrite_counterexample :
    findMod [fixBootDup] = none ∧
    (getExposedTools [fixBootDup]).length = 2 ∧
    fixDup1.handler_code = "return 1;" ∧
    lookupFile (generateProjectFiles [fixBootDup]) "handlers/dup.js" = some "return 2;" ∧
    ("return 2;" : String) ≠ "return 1;" := by
  refine ⟨rfl, rfl, rfl, rfl, by decide⟩

/-- C9 (amended): for a chain holding only a RootStage (no mod, no ui
stage), the exposed tool count equals the RootStage tool count, the exposed
tools are the RootStage tools unchanged (name, description, schema), and
every tool's fragment is written verbatim to its named handler file; when
the tool names are distinct the final content of each named handler file is
exactly that tool's fragment (under a duplicated name, only the last tool's
fragment survives at the shared path). -/
theorem exposed_tools_bootonly_amended (stages : List StageMetadata) (b : BootData)
    (hboot : findBoot stages = some b)
    (hmod : findMod stages = none)
    (hui : findUI stages = none)
    (hnd : (b.tools.map (fun t => t.name)).Nodup) :
    (getExposedTools stages).length = b.tools.length ∧
    getExposedTools stages
      = b.tools.map (fun t =>
          { name := t.name, description := t.description, inputSchema := t.input_schema }) ∧
    (∀ t ∈ b.tools,
       ("handlers/" ++ t.name ++ ".js", t.handler_code) ∈ generateProjectFiles stages) ∧
    (∀ t ∈ b.tools,
       lookupFile (generateProjectFiles stages) ("handlers/" ++ t.name ++ ".js")
         = some t.handler_code) := by
  have hfiles : generateProjectFiles stages
      = ([("package.json", writeJSONContent (generatePackageJson stages))] ++
         b.tools.map (fun t => ("handlers/" ++ t.name ++ ".js", t.handler_code))) ++
        [("server.js", generateServerJs stages), ("README.md", generateReadme stages)] := by
    unfold generateProjectFiles
    rw [hboot, hmod, hui]
    simp
  refine ⟨?_, ?_, ?_, ?_⟩
  · unfold getExposedTools
    rw [hmod, hboot]
    simp
  · unfold getExposedTools
    rw [hmod, hboot]
  · intro t ht
    rw [hfiles]
    refine List.mem_append_left _ (List.mem_append_right _ ?_)
    exact List.mem_map_of_mem _ ht
  · intro t ht
    have hkeys : (b.tools.map (fun t => "handlers/" ++ t.name ++ ".js")).Nodup := by
      have : b.tools.map (fun t => "handlers/" ++ t.name ++ ".js")
          = (b.tools.map (fun t => t.name)).map (fun n => "handlers/" ++ n ++ ".js") := by
        rw [List.map_map]
        rfl
      rw [this]
      exact hnd.map handlersPath_injective
    have hB : jsMapSet (b.tools.map (fun t => ("handlers/" ++ t.name ++ ".js", t.handler_code)))
        ("handlers/" ++ t.name ++ ".js") = some t.handler_code :=
      jsMapSet_map_eq_of_nodup _ _ b.tools hkeys t ht
    have hC : jsMapSet
        [("server.js", generateServerJs stages), ("README.md", generateReadme stages)]
        ("handlers/" ++ t.name ++ ".js") = none := by
      apply jsMapSet_eq_none
      intro kv hkv
      simp only [List.mem_cons, List.mem_singleton, List.not_mem_nil, or_false] at hkv
      rcases hkv with rfl | rfl
      · show "handlers/" ++ t.name ++ ".js" ≠ "server.js"
        exact handlersPath_ne_short _ _ (by decide)
      · show "handlers/" ++ t.name ++ ".js" ≠ "README.md"
        exact handlersPath_ne_short _ _ (by decide)
    unfold lookupFile
    rw [hfiles]
    calc jsMapSet (([_] ++ b.tools.map _) ++ _) ("handlers/" ++ t.name ++ ".js")
        = jsMapSet ([("package.json", writeJSONContent (generatePackageJson stages))] ++
            b.tools.map (fun t => ("handlers/" ++ t.name ++ ".js", t.handler_code)))
            ("handlers/" ++ t.name ++ ".js") := by
          rw [jsMapSet_append, hC]
      _ = some t.handler_code := by
          rw [jsMapSet_append, hB]

/-- Witness for the amended C9 at the single-tool boot-only fixture. -/
theorem exposed_tools_bootonly_amended_witness :
    findBoot [fixBootOnly] = some fixBootOnlyData ∧
    (getExposedTools [fixBootOnly]).length = 1 ∧
    ("handlers/" ++ fixGreet.name ++ ".js", fixGreet.handler_code)
      ∈ generateProjectFiles [fixBootOnly] ∧
    lookupFile (generateProjectFiles [fixBootOnly]) ("handlers/" ++ fixGreet.name ++ ".js")
      = some fixGreet.handler_code := by
  have h := exposed_tools_bootonly_amended [fixBootOnly] fixBootOnlyData rfl rfl rfl (by decide)
  refine ⟨rfl, by simpa using h.1, ?_, ?_⟩
  · exact h.2.2.1 fixGreet (by simp [fixBootOnlyData])
  · exact h.2.2.2 fixGreet (by simp [fixBootOnlyData])

/-- C1 counterexample: in a generated artifact whose chain had no
TransformStage, an unmatched tool name does NOT produce the structured
`isError` payload — the emitted dispatcher is just
`return callBootTool(name, args)`, which throws
`"Unknown boot tool: " + name`, a rejection escaping the dispatcher to the
protocol layer. -/
theorem dispatch_unknown_bootonly_counterexample :
    dispatchTool [fixBootOnly] oracleNull oracleOrchNull oracleNull "nope" (Json.obj [])
      = (.thrown ("Unknown boot tool: " ++ "nope"), []) ∧
    (ExecResult.thrown ("Unknown boot tool: " ++ "nope") : ExecResult Json)
      ≠ .ok (unknownToolPayload "nope") := by
  refine ⟨rfl, by simp⟩

/-- C1 (amended): the emitted dispatcher resolves in strict order with first
match wins — synthetic tools first (a name that is both synthetic and routed
runs its orchestration), then routed tools by exposed name, and the direct
step (invoking the RootStage handler named by the request) exists only when
no TransformStage was present.  The unmatched case returns the structured
`isError: true` payload only when a TransformStage is present (and its
`orchestrations` map is declared, i.e. it has at least one synthetic tool);
in a RootStage-only artifact an unknown name instead surfaces as a thrown
"Unknown boot tool" error. -/
theorem dispatch_resolution_order :
    (∀ stages m name code args runH evalOrch evalFn,
       findMod stages = some m →
       orchestrationsMap m name = some code →
       dispatchTool stages runH evalOrch evalFn name args
         = (evalOrch (callToolCapability (findBoot stages) runH) code args, [])) ∧
    (∀ stages b name args runH evalOrch evalFn,
       findMod stages = none →
       findBoot stages = some b →
       dispatchTool stages runH evalOrch evalFn name args
         = (callBootTool b runH name args, [])) ∧
    (∀ stages m name args runH evalOrch evalFn,
       findMod stages = some m →
       orchestrationsDeclared m = true →
       orchestrationsMap m name = none →
       toolRouting m name = none →
       dispatchTool stages runH evalOrch evalFn name args
         = (.ok (unknownToolPayload name), [])) := by
  refine ⟨?_, ?_, ?_⟩
  · intro stages m name code args runH evalOrch evalFn hmod horch
    simp [dispatchTool, hmod, horch, orchestrationsDeclared_of_map m name code horch]
  · intro stages b name args runH evalOrch evalFn hmod hboot
    simp [dispatchTool, hmod, hboot]
  · intro stages m name args runH evalOrch evalFn hmod hdecl horch hrout
    simp [dispatchTool, hmod, hdecl, horch, hrout]

/-- Witness for the amended C1: the three resolution outcomes at the
concrete fixtures — a synthetic name (also checking it wins dispatch), the
direct step in a boot-only artifact, and the unknown payload in a
boot+mod artifact. -/
theorem dispatch_resolution_order_witness :
    dispatchTool fixStages oracleNull oracleOrchNull oracleNull "greet_loudly" (Json.obj [])
      = (oracleOrchNull (callToolCapability (findBoot fixStages) oracleNull)
           fixSynthLoud.orchestration_code (Json.obj []), []) ∧
    dispatchTool [fixBootOnly] oracleNull oracleOrchNull oracleNull "greet" (Json.obj [])
      = (callBootTool fixBootOnlyData oracleNull "greet" (Json.obj []), []) ∧
    dispatchTool fixStages oracleNull oracleOrchNull oracleNull "nope" (Json.obj [])
      = (.ok (unknownToolPayload "nope"), []) := by
  refine ⟨?_, ?_, ?_⟩
  · exact dispatch_resolution_order.1 fixStages fixModData "greet_loudly"
      fixSynthLoud.orchestration_code (Json.obj []) oracleNull oracleOrchNull oracleNull rfl rfl
  · exact dispatch_resolution_order.2.1 [fixBootOnly] fixBootOnlyData "greet" (Json.obj [])
      oracleNull oracleOrchNull oracleNull rfl rfl
  · exact dispatch_resolution_order.2.2 fixStages fixModData "nope" (Json.obj [])
      oracleNull oracleOrchNull oracleNull rfl rfl rfl rfl

/-- C7: inside a synthetic tool's orchestration, the bound `callTool`
capability is exactly `callBootTool`: it reaches RootStage-level tools by
name and returns their handler's result, and a name that has no RootStage
handler — in particular another synthetic tool's name — is rejected with a
thrown "Unknown boot tool" error, not silently ignored.  Composition is
therefore single level: the capability can never re-enter an
orchestration. -/
theorem orchestration_calltool_single_level
    (stages : List StageMetadata) (b : BootData) (m : ModData)
    (tname code target : String) (args : Json)
    (runH evalFn : String → Json → ExecResult Json)
    (hboot : findBoot stages = some b)
    (hmod : findMod stages = some m)
    (horch : orchestrationsMap m tname = some code) :
    dispatchTool stages runH (fun ct _ a => ct target a) evalFn tname args
      = (callToolCapability (some b) runH target args, []) ∧
    (∀ hcode, bootHandlers b target = some hcode →
       callToolCapability (some b) runH target args = runH hcode args) ∧
    (bootHandlers b target = none →
       callToolCapability (some b) runH target args
         = .thrown ("Unknown boot tool: " ++ target)) := by
  refine ⟨?_, ?_, ?_⟩
  · simp [dispatchTool, hmod, hboot, horch,
          orchestrationsDeclared_of_map m tname code horch]
  · intro hcode hh
    simp [callToolCapability, callBootTool, hh]
  · intro hh
    simp [callToolCapability, callBootTool, hh]

/-- Witness for C7: the orchestration's `callTool` reaches the boot tool
`greet` (returning its handler evaluation) and rejects the other synthetic
tool's name with a thrown error. -/
theorem orchestration_calltool_single_level_witness :
    (dispatchTool fixStages oracleNull (fun ct _ a => ct "greet" a) oracleNull
       "greet_loudly" (Json.obj [])
      = (callToolCapability (some fixBootNetData) oracleNull "greet" (Json.obj []), [])) ∧
    callToolCapability (some fixBootNetData) oracleNull "greet" (Json.obj [])
      = oracleNull "return 1;" (Json.obj []) ∧
    callToolCapability (some fixBootNetData) oracleNull "other_synth" (Json.obj [])
      = .thrown ("Unknown boot tool: " ++ "other_synth") := by
  have h1 := orchestration_calltool_single_level fixStages fixBootNetData fixModData
    "greet_loudly" fixSynthLoud.orchestration_code "greet" (Json.obj [])
    oracleNull oracleNull rfl rfl rfl
  have h2 := orchestration_calltool_single_level fixStages fixBootNetData fixModData
    "greet_loudly" fixSynthLoud.orchestration_code "other_synth" (Json.obj [])
    oracleNull oracleNull rfl rfl rfl
  exact ⟨h1.1, h1.2.1 "return 1;" rfl, h2.2.2 rfl⟩

/-- C10: in the generated artifact's routed dispatch, a throwing input
transform is caught and only logged, and the upstream handler receives the
ORIGINAL untransformed arguments; a throwing output transform is likewise
caught and only logged, leaving the untransformed upstream result; the
caller receives a normal (non-thrown, non-`isError`) result either way. -/
theorem transform_error_fallback
    (stages : List StageMetadata) (b : BootData) (m : ModData)
    (name up cIn cOut hcode e1 e2 : String) (args r : Json)
    (runH evalFn : String → Json → ExecResult Json)
    (evalOrch : (String → Json → ExecResult Json) → String → Json → ExecResult Json)
    (hboot : findBoot stages = some b)
    (hmod : findMod stages = some m)
    (hdecl : orchestrationsDeclared m = true)
    (hnosynth : orchestrationsMap m name = none)
    (hroute : toolRouting m name = some up)
    (htrdecl : transformsDeclared m = true)
    (htr : transformsMap m name = some (some cIn, some cOut))
    (hcin : cIn ≠ "")
    (hcout : cOut ≠ "")
    (hin : evalFn cIn args = .thrown e1)
    (hh : bootHandlers b up = some hcode)
    (hrun : runH hcode args = .ok r)
    (hout : evalFn cOut r = .thrown e2) :
    dispatchTool stages runH evalOrch evalFn name args
      = (.ok r,
         ["Input transform error for " ++ name ++ ": " ++ e1,
          "Output transform error for " ++ name ++ ": " ++ e2]) := by
  unfold dispatchTool routedDispatch
  rw [hmod]
  simp [hdecl, hnosynth, hroute, htrdecl, htr, hboot,
        applyInputTransform, applyOutputTransform, bne_iff_ne, hcin, hcout,
        hin, hout, callBootTool, hh, hrun]

/-- Witness for C10 at the routed fixture tool `find` with both transforms
throwing: the caller still receives the handler's result for the original
arguments, and both failures appear only in the log. -/
theorem transform_error_fallback_witness :
    dispatchTool fixStages (fun code _ => .ok (Json.str code)) oracleOrchNull
      (fun _ _ => .thrown "boom") "find" (Json.obj [])
      = (.ok (Json.str "return 2;"),
         ["Input transform error for " ++ "find" ++ ": " ++ "boom",
          "Output transform error for " ++ "find" ++ ": " ++ "boom"]) := by
  exact transform_error_fallback fixStages fixBootNetData fixModData
    "find" "lookup" "return args;" "return result;" "return 2;" "boom" "boom"
    (Json.obj []) (Json.str "return 2;")
    (fun code _ => .ok (Json.str code)) (fun _ _ => .thrown "boom") oracleOrchNull
    rfl rfl rfl rfl rfl rfl rfl (by decide) (by decide) rfl rfl rfl rfl

/-- C2 counterexample: not every metadata-carried fragment runs in an
isolated, freshly constructed context — the input-transform fragment of the
routed tool `find` is evaluated via `new Function` in the server's module
realm (ambient scope reachable, nothing allowlisted), not via a fresh
`vm.createContext`. -/
theorem fragment_isolation_counterexample :
    GeneratedFragment.inputTransform "find" ∈ fragmentsOf fixStages ∧
    (fragmentExecSpec fixStages (GeneratedFragment.inputTransform "find")).mechanism
      = ExecMechanism.hostFunction ∧
    ExecMechanism.hostFunction ≠ ExecMechanism.freshVmContext := by
  refine ⟨by decide, rfl, by decide⟩

/-- C2 (amended): among the fragments of a generated artifact, exactly the
RootStage handler fragments and the synthetic orchestration fragments are
evaluated in a freshly constructed isolated vm context exposing only the
explicit sandbox bindings; the transform pair members are not — they run as
ordinary host functions of the module realm. -/
theorem fragment_isolation_amended (stages : List StageMetadata) (frag : GeneratedFragment)
    (hfrag : frag ∈ fragmentsOf stages) :
    (fragmentExecSpec stages frag).mechanism = ExecMechanism.freshVmContext
      ↔ (∃ n, frag = .handler n ∨ frag = .orchestration n) := by
  cases frag with
  | handler n => exact iff_of_true rfl ⟨n, Or.inl rfl⟩
  | orchestration n => exact iff_of_true rfl ⟨n, Or.inr rfl⟩
  | inputTransform n => simp [fragmentExecSpec]
  | outputTransform n => simp [fragmentExecSpec]

/-- Witness for the amended C2 at the handler fragment of `greet`. -/
theorem fragment_isolation_amended_witness :
    GeneratedFragment.handler "greet" ∈ fragmentsOf fixStages ∧
    ((fragmentExecSpec fixStages (GeneratedFragment.handler "greet")).mechanism
        = ExecMechanism.freshVmContext
      ↔ (∃ n, GeneratedFragment.handler "greet" = GeneratedFragment.handler n
            ∨ GeneratedFragment.handler "greet" = GeneratedFragment.orchestration n)) :=
  ⟨by decide, fragment_isolation_amended fixStages (GeneratedFragment.handler "greet") (by decide)⟩

/-- C3 counterexample: the fetch binding is NOT gated per owning tool — the
generator computes one artifact-wide `hasNetwork` flag, so the handler
evaluation site of the pure tool `greet` (which declared no network need)
still exposes `fetch`, because the sibling tool `lookup` declared one. -/
theorem fetch_gating_counterexample :
    fixGreet ∈ fixBootNetData.tools ∧
    fixGreet.needs_network = false ∧
    GeneratedFragment.handler fixGreet.name ∈ fragmentsOf [fixBootNet] ∧
    "fetch" ∈ (fragmentExecSpec [fixBootNet] (GeneratedFragment.handler fixGreet.name)).bindings := by
  refine ⟨List.mem_cons_self _ _, rfl, by decide, by decide⟩

/-- C3 (amended): the fetch binding is present in handler and orchestration
contexts precisely when SOME RootStage tool declared a network need
(artifact-wide gating, not per owning tool); and whenever present, every
outbound call is checked against the domain allowlist
(`hostname === d || hostname.endsWith("." + d)`) before any network I/O —
a non-matching target throws "Network access denied" with no connection
opened. -/
theorem fetch_gating_amended :
    (∀ stages n,
       ("fetch" ∈ (fragmentExecSpec stages (GeneratedFragment.handler n)).bindings
          ↔ hasNetwork stages = true) ∧
       ("fetch" ∈ (fragmentExecSpec stages (GeneratedFragment.orchestration n)).bindings
          ↔ hasNetwork stages = true)) ∧
    (∀ parseHostname whitelist doFetch url,
       isAllowed parseHostname whitelist url = false →
       whitelistedFetch parseHostname whitelist doFetch url
         = { result := .thrown ("Network access denied: " ++ url),
             connectionsOpened := [] }) := by
  constructor
  · intro stages n
    constructor <;>
      (cases h : hasNetwork stages <;> simp [fragmentExecSpec, h, sharedSandboxBindings])
  · intro parseHostname whitelist doFetch url h
    simp [whitelistedFetch, h]

/-- Witness for the amended C3: the two-tool fixture has artifact-wide
network need, and a fetch whose host matches no allowlisted domain (here an
empty allowlist) is rejected with no connection opened. -/
theorem fetch_gating_amended_witness :
    ("fetch" ∈ (fragmentExecSpec [fixBootNet] (GeneratedFragment.handler "greet")).bindings
       ↔ hasNetwork [fixBootNet] = true) ∧
    isAllowed (fun _ => some "evil.example.net") []
      "https://evil.example.net/x" = false ∧
    whitelistedFetch (fun _ => some "evil.example.net") []
      (fun _ => Json.null) "https://evil.example.net/x"
      = { result := .thrown ("Network access denied: " ++ "https://evil.example.net/x"),
          connectionsOpened := [] } := by
  refine ⟨(fetch_gating_amended.1 [fixBootNet] "greet").1, rfl, ?_⟩
  exact fetch_gating_amended.2 _ _ _ _ rfl

/-- C8 counterexample: not every fragment invocation is wrapped with the
fixed wall-clock timeout — the input-transform fragment of the routed tool
`find` runs through `new Function` with no timeout at all. -/
theorem fragment_timeout_counterexample :
    GeneratedFragment.inputTransform "find" ∈ fragmentsOf fixStages ∧
    (fragmentExecSpec fixStages (GeneratedFragment.inputTransform "find")).timeout_ms
      = none := by
  exact ⟨by decide, rfl⟩

/-- C8 (amended): handler and orchestration invocations run under the fixed
30000 ms vm timeout, but their exceptions are NOT caught at the sandbox
boundary of the generated code — a thrown handler propagates out of
`dispatchTool` as a rejection (handled only by the protocol layer above);
the transform fragments have no timeout at all, though their exceptions are
caught and logged locally. -/
theorem fragment_timeout_amended :
    (∀ stages n,
       (fragmentExecSpec stages (GeneratedFragment.handler n)).timeout_ms
         = some SANDBOX_TIMEOUT_MS ∧
       (fragmentExecSpec stages (GeneratedFragment.orchestration n)).timeout_ms
         = some SANDBOX_TIMEOUT_MS ∧
       (fragmentExecSpec stages (GeneratedFragment.handler n)).exceptionsCaughtLocally
         = false ∧
       (fragmentExecSpec stages (GeneratedFragment.orchestration n)).exceptionsCaughtLocally
         = false ∧
       (fragmentExecSpec stages (GeneratedFragment.inputTransform n)).timeout_ms = none ∧
       (fragmentExecSpec stages (GeneratedFragment.inputTransform n)).exceptionsCaughtLocally
         = true ∧
       (fragmentExecSpec stages (GeneratedFragment.outputTransform n)).timeout_ms = none ∧
       (fragmentExecSpec stages (GeneratedFragment.outputTransform n)).exceptionsCaughtLocally
         = true) ∧
    (∀ stages b name code e args runH evalOrch evalFn,
       findMod stages = none →
       findBoot stages = some b →
       bootHandlers b name = some code →
       runH code args = ExecResult.thrown e →
       dispatchTool stages runH evalOrch evalFn name args = (.thrown e, [])) := by
  constructor
  · intro stages n
    exact ⟨rfl, rfl, rfl, rfl, rfl, rfl, rfl, rfl⟩
  · intro stages b name code e args runH evalOrch evalFn hmod hboot hh hrun
    simp [dispatchTool, hmod, hboot, callBootTool, hh, hrun]

/-- Witness for the amended C8: the handler site carries the 30 s timeout,
and a throwing handler fragment escapes the dispatcher as a rejection. -/
theorem fragment_timeout_amended_witness :
    (fragmentExecSpec [fixBootOnly] (GeneratedFragment.handler "greet")).timeout_ms
      = some SANDBOX_TIMEOUT_MS ∧
    dispatchTool [fixBootOnly] (fun _ _ => ExecResult.thrown "boom") oracleOrchNull
      oracleNull "greet" (Json.obj [])
      = (.thrown "boom", []) := by
  refine ⟨(fragment_timeout_amended.1 [fixBootOnly] "greet").1, ?_⟩
  exact fragment_timeout_amended.2 [fixBootOnly] fixBootOnlyData "greet" "return 1;"
    "boom" (Json.obj []) (fun _ _ => ExecResult.thrown "boom") oracleOrchNull oracleNull
    rfl rfl rfl rfl
